/-
Verification of the MegaD matterbridge plugin (src/module.ts) against its
natural-language specification.

The development shallowly embeds the plugin's synchronization core:
  * JavaScript string primitives used by the code (`String.prototype.split`
    with a one-character separator, `String.prototype.trim`, the global
    `parseInt` with no radix argument, and decimal printing of integer
    `Number`s via template literals) are modelled as executable Lean
    functions over `List Char` / `String`.
  * The side-effecting methods of `MegaDPlatform` are modelled as pure
    functions that return the ordered list of observable effects (log
    lines, MQTT connect/subscribe/publish/disconnect, registry calls)
    together with the updated piece of state they touch (the MQTT client
    slot, modelled as `Option String` holding the broker URL).
-/
import Mathlib

set_option maxRecDepth 4000

namespace MegaD

/-! ## JavaScript string primitives -/

/-- Whitespace recognised by JavaScript `trim` / `parseInt` (ASCII whitespace
characters plus NBSP and the BOM; exotic Unicode space separators are not
needed by any claim). -/
def isJsWhitespace (c : Char) : Bool :=
  c.toNat == 32 || c.toNat == 9 || c.toNat == 10 || c.toNat == 13 ||
  c.toNat == 11 || c.toNat == 12 || c.toNat == 160 || c.toNat == 65279

/-- `l.trim()` on the character list: drop whitespace from both ends. -/
def trimChars (l : List Char) : List Char :=
  ((l.dropWhile isJsWhitespace).reverse.dropWhile isJsWhitespace).reverse

/-- JavaScript `s.trim()`. -/
def jsTrim (s : String) : String := String.mk (trimChars s.data)

/-- JavaScript `s.split(sep)` for a one-character separator: splits into the
(nonempty) list of groups between occurrences of `sep`. -/
def splitChar (sep : Char) : List Char → List (List Char)
  | [] => [[]]
  | c :: cs =>
    if c = sep then [] :: splitChar sep cs
    else
      match splitChar sep cs with
      | [] => [[c]]
      | g :: gs => (c :: g) :: gs

/-- Value of a decimal digit character, `none` for non-digits. -/
def decDigit? (c : Char) : Option Nat :=
  if 48 ≤ c.toNat && c.toNat ≤ 57 then some (c.toNat - 48) else none

/-- Value of a hexadecimal digit character, `none` for non-digits. -/
def hexDigit? (c : Char) : Option Nat :=
  if 48 ≤ c.toNat && c.toNat ≤ 57 then some (c.toNat - 48)
  else if 97 ≤ c.toNat && c.toNat ≤ 102 then some (c.toNat - 87)
  else if 65 ≤ c.toNat && c.toNat ≤ 70 then some (c.toNat - 55)
  else none

/-- Digit value in the given radix (only 10 and 16 arise in `parseInt`). -/
def digitInRadix (radix : Nat) (c : Char) : Option Nat :=
  if radix == 16 then hexDigit? c else decDigit? c

/-- Longest prefix of digits valid in the radix, as digit values. -/
def takeDigits (radix : Nat) : List Char → List Nat
  | [] => []
  | c :: cs =>
    match digitInRadix radix c with
    | some d => d :: takeDigits radix cs
    | none => []

/-- Positional value of a digit list (most significant first). -/
def digitsToNat (radix : Nat) (ds : List Nat) : Nat :=
  ds.foldl (fun a d => a * radix + d) 0

/-- Leading-sign step of `parseInt`: consume one optional `+`/`-`. -/
def stripSign : List Char → Int × List Char
  | [] => (1, [])
  | c :: cs =>
    if c = '+' then (1, cs)
    else if c = '-' then (-1, cs)
    else (1, c :: cs)

/-- Radix-detection step of `parseInt` with no radix argument: a `0x`/`0X`
prefix selects base 16, anything else base 10. -/
def splitRadix : List Char → Nat × List Char
  | c1 :: c2 :: cs =>
    if c1 = '0' && (c2 = 'x' || c2 = 'X') then (16, cs) else (10, c1 :: c2 :: cs)
  | l => (10, l)

/-- JavaScript `parseInt(s)` (no radix argument) on a character list:
skip leading whitespace, read an optional sign, detect a `0x` prefix, then
read the longest valid digit prefix; `none` models `NaN`. -/
def jsParseIntList (cs : List Char) : Option Int :=
  let t := cs.dropWhile isJsWhitespace
  let s := stripSign t
  let r := splitRadix s.2
  let ds := takeDigits r.1 r.2
  if ds.isEmpty then none else some (s.1 * (digitsToNat r.1 ds : Int))

/-- JavaScript `parseInt(s)`. -/
def jsParseInt (s : String) : Option Int := jsParseIntList s.data

/-- Decimal digit character for a value `< 10`. -/
def digitChar (d : Nat) : Char := Char.ofNat (48 + d)

/-- Fuel-driven decimal printing of a natural number (most significant digit
first); the fuel only needs to exceed the number of digits. -/
def natReprCore : Nat → Nat → List Char
  | 0, _ => []
  | f + 1, n =>
    if n < 10 then [digitChar n]
    else natReprCore f (n / 10) ++ [digitChar (n % 10)]

/-- Digits of `n` in base ten, as JavaScript prints an integral `Number`. -/
def natReprList (n : Nat) : List Char := natReprCore (n + 1) n

/-- JavaScript `String(n)` for a nonnegative integral number. -/
def natRepr (n : Nat) : String := String.mk (natReprList n)

/-- JavaScript `String(i)` for an integral number (minus sign for negatives). -/
def intRepr (i : Int) : String :=
  if i < 0 then String.mk ('-' :: natReprList i.natAbs)
  else String.mk (natReprList i.natAbs)

/-! ## Configuration model (`MegaDConfig` and its resolution in the
`MegaDPlatform` constructor, module.ts lines 106-137) -/

/-- One entry of `config.devices` (module.ts lines 14-18). -/
structure DeviceConfig where
  id : Nat
  name : String
  room : Option String
deriving DecidableEq

/-- The `config.mqtt` block as received (fields may be absent; an absent or
empty `broker` string is falsy in the source's `||` defaulting). -/
structure MqttConfig where
  broker : Option String
  username : Option String
  password : Option String
deriving DecidableEq

/-- The raw platform configuration as received by the constructor; `mqtt` and
`devices` may be absent (`config.mqtt?.` / `config.devices ||` in the source). -/
structure MegaDConfigIn where
  mqtt : Option MqttConfig
  devices : Option (List DeviceConfig)
  unregisterOnShutdown : Bool
deriving DecidableEq

/-- The stored `this.megaDConfig` after the constructor's defaulting. -/
structure ResolvedConfig where
  broker : String
  username : Option String
  password : Option String
  devices : List DeviceConfig
deriving DecidableEq

/-- The default device inserted when `config.devices` is absent
(module.ts lines 118-125). -/
def defaultDevice : DeviceConfig :=
  { id := 11, name := "Bedroom Light", room := some "Bedroom" }

/-- `this.megaDConfig = { ...config, mqtt: { broker: config.mqtt?.broker ||
'mqtt://localhost:1883', ... }, devices: config.devices || [default] }`
(module.ts lines 111-125).  Note the `||` defaulting: an absent or empty
broker string becomes the localhost URL, and only an absent `devices` (not an
empty array, which is truthy) becomes the default list. -/
def resolveConfig (cfg : MegaDConfigIn) : ResolvedConfig :=
  { broker :=
      match cfg.mqtt with
      | some m =>
        match m.broker with
        | some b => if b = "" then "mqtt://localhost:1883" else b
        | none => "mqtt://localhost:1883"
      | none => "mqtt://localhost:1883"
    username := cfg.mqtt.bind (fun m => m.username)
    password := cfg.mqtt.bind (fun m => m.password)
    devices := cfg.devices.getD [defaultDevice] }

/-! ## Observable effects -/

/-- One observable side effect of the platform, in program order. -/
inductive Effect where
  | logInfo (msg : String)
  | logWarn (msg : String)
  | logError (msg : String)
  | mqttConnect (broker : String)
  | mqttSubscribe (topic : String)
  | mqttPublish (topic : String) (payload : String)
  | mqttDisconnect
  | registerDevice (id : Nat) (name : String)
  | setAttribute (cluster : String) (attr : String) (value : Bool)
  | awaitReady
  | clearSelect
  | superShutdown
  | unregisterAll
deriving DecidableEq

/-- Is the effect a log line (of any level)? -/
def isLogEffect : Effect → Bool
  | Effect.logInfo _ => true
  | Effect.logWarn _ => true
  | Effect.logError _ => true
  | _ => false

/-- Is the effect a warning-level log line? -/
def isWarnEffect : Effect → Bool
  | Effect.logWarn _ => true
  | _ => false

/-- The `(topic, payload)` pairs published to MQTT, in order. -/
def publishesOf (es : List Effect) : List (String × String) :=
  es.filterMap (fun e =>
    match e with
    | Effect.mqttPublish t p => some (t, p)
    | _ => none)

/-- The `(id, name)` pairs of devices registered with the framework, in order. -/
def registeredOf (es : List Effect) : List (Nat × String) :=
  es.filterMap (fun e =>
    match e with
    | Effect.registerDevice i n => some (i, n)
    | _ => none)

/-! ## The platform's operations (module.ts lines 139-307)

The MQTT client slot `this.mqttClient : MqttClient | null` is modelled as
`Option String` carrying the broker URL of the connected client. -/

/-- A registered Matter endpoint as seen by `updateDeviceState`: its
`uniqueId` and the set of cluster servers it hosts (`hasClusterServer`). -/
structure MDevice where
  uniqueId : String
  clusters : List String
deriving DecidableEq

/-- `updateDeviceState(deviceId, state)` (module.ts lines 291-306): look the
device up by `uniqueId === megad_<deviceId>`; warn and return if absent;
otherwise parse `state.trim() === '1'`, log, and write the onOff attribute
only when the device has the onOff cluster server. -/
def updateDeviceState (devices : List MDevice) (deviceId : Int) (state : String) :
    List Effect :=
  match devices.find? (fun d => d.uniqueId == "megad_" ++ intRepr deviceId) with
  | none => [Effect.logWarn ("Device with ID " ++ intRepr deviceId ++ " not found")]
  | some device =>
    let isOn := jsTrim state == "1"
    Effect.logInfo ("Updating device " ++ intRepr deviceId ++ " state to: " ++
        (if isOn then "ON" else "OFF")) ::
      (if device.clusters.contains "onOff" then
        [Effect.setAttribute "onOff" "onOff" isOn]
      else [])

/-- `handleMqttMessage(topic, message)` (module.ts lines 278-289): log the
message, split the topic on `/`, and when it has exactly two parts whose
first is `alex` and whose second `parseInt`s to a number, dispatch to
`updateDeviceState`. -/
def handleMqttMessage (devices : List MDevice) (topic : String) (message : String) :
    List Effect :=
  Effect.logInfo ("MQTT message received - Topic: " ++ topic ++ ", Message: " ++ message) ::
    (match splitChar '/' topic.data with
    | [ns, seg] =>
      if ns = "alex".data then
        match jsParseIntList seg with
        | some deviceId => updateDeviceState devices deviceId message
        | none => []
      else []
    | _ => [])

/-- The pure inbound codec `decodeInbound(topic, payload)` of the spec,
embedded from the topic parse of `handleMqttMessage` (module.ts lines
282-287) composed with the payload parse `state.trim() === '1'` of
`updateDeviceState` (module.ts line 299). -/
def decodeInbound (topic : String) (payload : String) : Option (Int × Bool) :=
  match splitChar '/' topic.data with
  | [ns, seg] =>
    if ns = "alex".data then
      match jsParseIntList seg with
      | some deviceId => some (deviceId, jsTrim payload == "1")
      | none => none
    else none
  | _ => none

/-- `sendMqttCommand(deviceId, state)` (module.ts lines 265-276): with no
client, log an error and return; otherwise log and publish
`"<deviceId>:<state>"` on the fixed topic `alex/cmd`. -/
def sendMqttCommand (client : Option String) (deviceId : Nat) (state : Nat) :
    List Effect :=
  match client with
  | none => [Effect.logError "MQTT client not connected"]
  | some _ =>
    [Effect.logInfo ("Publishing to alex/cmd: " ++ natRepr deviceId ++ ":" ++ natRepr state),
     Effect.mqttPublish "alex/cmd" (natRepr deviceId ++ ":" ++ natRepr state)]

/-- The pure outbound codec `encodeOutbound(deviceId, state)` of the spec,
embedded from the template literals of `sendMqttCommand` (module.ts lines
271-272) at the arguments `1`/`0` passed by the command handlers. -/
def encodeOutbound (deviceId : Nat) (state : Bool) : String × String :=
  ("alex/cmd", natRepr deviceId ++ ":" ++ (if state then "1" else "0"))

/-- The `on` command handler attached in `createMegaDLight` (module.ts lines
252-255): log, then `sendMqttCommand(deviceId, 1)`. -/
def onCommandHandler (client : Option String) (deviceId : Nat) (deviceName : String) :
    List Effect :=
  Effect.logInfo ("Turning ON device " ++ natRepr deviceId ++ " (" ++ deviceName ++ ")") ::
    sendMqttCommand client deviceId 1

/-- The `off` command handler attached in `createMegaDLight` (module.ts lines
256-259): log, then `sendMqttCommand(deviceId, 0)`. -/
def offCommandHandler (client : Option String) (deviceId : Nat) (deviceName : String) :
    List Effect :=
  Effect.logInfo ("Turning OFF device " ++ natRepr deviceId ++ " (" ++ deviceName ++ ")") ::
    sendMqttCommand client deviceId 0

/-- `initializeMqtt()` (module.ts lines 186-222): if the stored broker string
is falsy, warn and leave the client null; otherwise log and connect,
returning the new client.  (The `connect`/`error`/`message` listeners are
modelled separately: `onMqttConnected` below is the `connect` listener.) -/
def initializeMqtt (r : ResolvedConfig) : Option String × List Effect :=
  if r.broker = "" then
    (none,
     [Effect.logWarn
        "MQTT broker not configured - devices will be created but MQTT functionality will be disabled"])
  else
    (some r.broker,
     [Effect.logInfo ("Connecting to MQTT broker: " ++ r.broker),
      Effect.mqttConnect r.broker])

/-- The `connect` listener installed by `initializeMqtt` (module.ts lines
202-213): log, then subscribe to `alex/<id>` for every configured device. -/
def onMqttConnected (r : ResolvedConfig) : List Effect :=
  Effect.logInfo "Connected to MQTT broker" ::
    r.devices.flatMap (fun d =>
      [Effect.mqttSubscribe ("alex/" ++ natRepr d.id),
       Effect.logInfo ("Subscribed to alex/" ++ natRepr d.id)])

/-- `createMegaDLight(deviceId, deviceName)` (module.ts lines 239-263):
build and register the onOff-light endpoint, then log. -/
def createMegaDLight (deviceId : Nat) (deviceName : String) : List Effect :=
  [Effect.registerDevice deviceId deviceName,
   Effect.logInfo ("Registered MegaD light: " ++ deviceName ++ " (ID: " ++
     natRepr deviceId ++ ")")]

/-- `createDevices()` (module.ts lines 224-237): with an empty device list,
create the default bedroom light with id 11; otherwise create every
configured device in order. -/
def createDevices (devices : List DeviceConfig) : List Effect :=
  if devices.isEmpty then
    Effect.logInfo "No devices configured, creating default bedroom light with ID 11" ::
      createMegaDLight 11 "Bedroom Light"
  else
    devices.flatMap (fun d =>
      Effect.logInfo ("Creating configured device: " ++ d.name ++ " (ID: " ++
          natRepr d.id ++ ")") ::
        createMegaDLight d.id d.name)

/-- `onStart(reason)` (module.ts lines 139-153): log, await `this.ready`,
`clearSelect()`, `initializeMqtt()`, `createDevices()`, in that order.
Returns the MQTT client slot after the call and the ordered effect trace. -/
def onStart (r : ResolvedConfig) (reason : Option String) :
    Option String × List Effect :=
  let m := initializeMqtt r
  (m.1,
   Effect.logInfo ("onStart called with reason: " ++ reason.getD "none") ::
     Effect.awaitReady :: Effect.clearSelect :: (m.2 ++ createDevices r.devices))

/-- `onShutdown(reason)` (module.ts lines 171-184): end the MQTT session only
when a client exists (nulling the slot), then `super.onShutdown`, the log
line, and the optional deregistration.  Returns the client slot after the
call (always null) and the ordered effect trace. -/
def onShutdown (client : Option String) (unregisterOnShutdown : Bool)
    (reason : Option String) : Option String × List Effect :=
  (none,
   (match client with
    | some _ => [Effect.logInfo "Disconnecting MQTT client...", Effect.mqttDisconnect]
    | none => []) ++
     [Effect.superShutdown,
      Effect.logInfo ("onShutdown called with reason: " ++ reason.getD "none")] ++
     (if unregisterOnShutdown then [Effect.unregisterAll] else []))

/-- The constructor's version-check error message (module.ts lines 129-131;
the stray closing quote before the final backtick is in the source). -/
def versionErrorMsg (current : String) : String :=
  "This plugin requires Matterbridge version >= \"3.0.7\". Please update Matterbridge from " ++
    current ++ " to the latest version in the frontend.\""

/-- The `MegaDPlatform` constructor (module.ts lines 106-137): resolve the
configuration, throw unless `verifyMatterbridgeVersion` exists, is a
function, and accepts `'3.0.7'` (an absent or non-function member is
modelled as `none`), then emit the three startup log lines. -/
def constructPlatform (cfg : MegaDConfigIn) (currentVersion : String)
    (verify : Option (String → Bool)) :
    Except String (ResolvedConfig × List Effect) :=
  let r := resolveConfig cfg
  match verify with
  | none => Except.error (versionErrorMsg currentVersion)
  | some v =>
    if v "3.0.7" then
      Except.ok (r,
        [Effect.logInfo "Initializing MegaD Platform...",
         Effect.logInfo ("MQTT Broker: " ++ r.broker),
         Effect.logInfo ("Configured devices: " ++ natRepr r.devices.length)])
    else Except.error (versionErrorMsg currentVersion)

/-- Modelled from the spec: what claim C1 means by the second topic segment
being "an integer deviceId" — an optional sign followed by one or more
decimal digits.  Used only to state the counterexample to C1. -/
def isIntegerLiteral (s : String) : Bool :=
  match s.data with
  | [] => false
  | c :: cs =>
    let ds := if c = '+' || c = '-' then cs else c :: cs
    !ds.isEmpty && ds.all (fun d => (decDigit? d).isSome)

/-- Is the effect the ending of the MQTT session? -/
def isDisconnectEffect : Effect → Bool
  | Effect.mqttDisconnect => true
  | _ => false

/-! ## Lemmas about the JavaScript string primitives -/

theorem decDigit?_isSome_iff (c : Char) :
    (decDigit? c).isSome = true ↔ 48 ≤ c.toNat ∧ c.toNat ≤ 57 := by
  unfold decDigit?
  split
  · rename_i h
    simp only [Option.isSome_some, true_iff]
    simpa using h
  · rename_i h
    simp only [Option.isSome_none, Bool.false_eq_true, false_iff]
    simpa using h

theorem isJsWhitespace_of_digit (c : Char) (h : (decDigit? c).isSome) :
    isJsWhitespace c = false := by
  have hb := (decDigit?_isSome_iff c).mp h
  unfold isJsWhitespace
  simp only [Bool.or_eq_false_iff, beq_eq_false_iff_ne, ne_eq]
  omega

theorem natReprCore_congr : ∀ n f g : Nat, n < f → n < g →
    natReprCore f n = natReprCore g n := by
  intro n
  induction n using Nat.strong_induction_on with
  | _ n ih =>
    intro f g hf hg
    cases f with
    | zero => omega
    | succ f =>
      cases g with
      | zero => omega
      | succ g =>
        simp only [natReprCore]
        by_cases h : n < 10
        · simp [h]
        · have hd : n / 10 < n := Nat.div_lt_self (by omega) (by omega)
          simp only [h, if_false]
          rw [ih (n / 10) hd f g (by omega) (by omega)]

theorem natReprList_eq (n : Nat) :
    natReprList n =
      if n < 10 then [digitChar n]
      else natReprList (n / 10) ++ [digitChar (n % 10)] := by
  unfold natReprList
  conv_lhs => rw [natReprCore]
  by_cases h : n < 10
  · simp [h]
  · have hd : n / 10 < n := Nat.div_lt_self (by omega) (by omega)
    simp only [h, if_false]
    rw [natReprCore_congr (n / 10) n (n / 10 + 1) (by omega) (by omega)]

theorem decDigit?_digitChar (d : Nat) (h : d < 10) :
    decDigit? (digitChar d) = some d := by
  interval_cases d <;> decide

theorem natReprList_digits (n : Nat) :
    ∀ c ∈ natReprList n, (decDigit? c).isSome := by
  induction n using Nat.strong_induction_on with
  | _ n ih =>
    rw [natReprList_eq]
    by_cases h : n < 10
    · simp [h, decDigit?_digitChar n h]
    · have hd : n / 10 < n := Nat.div_lt_self (by omega) (by omega)
      simp only [h, if_false]
      intro c hc
      rcases List.mem_append.mp hc with hc' | hc'
      · exact ih (n / 10) hd c hc'
      · simp only [List.mem_singleton] at hc'
        subst hc'
        simp [decDigit?_digitChar (n % 10) (Nat.mod_lt _ (by omega))]

theorem natReprList_ne_nil (n : Nat) : natReprList n ≠ [] := by
  rw [natReprList_eq]
  by_cases h : n < 10 <;> simp [h]

theorem digitsToNat_natReprList (n : Nat) :
    digitsToNat 10 ((natReprList n).map (fun c => (decDigit? c).getD 0)) = n := by
  induction n using Nat.strong_induction_on with
  | _ n ih =>
    rw [natReprList_eq]
    by_cases h : n < 10
    · simp [h, digitsToNat, decDigit?_digitChar n h]
    · have hd : n / 10 < n := Nat.div_lt_self (by omega) (by omega)
      have h1 := ih (n / 10) hd
      simp only [h, if_false, List.map_append]
      unfold digitsToNat at h1 ⊢
      rw [List.foldl_append, h1]
      simp [decDigit?_digitChar (n % 10) (Nat.mod_lt _ (by omega))]
      omega

theorem takeDigits_of_digits : ∀ l : List Char,
    (∀ c ∈ l, (decDigit? c).isSome) →
    takeDigits 10 l = l.map (fun c => (decDigit? c).getD 0) := by
  intro l
  induction l with
  | nil => intro _; rfl
  | cons c cs ih =>
    intro h
    have hc := h c (by simp)
    rcases Option.isSome_iff_exists.mp hc with ⟨d, hd⟩
    rw [takeDigits]
    simp [digitInRadix, hd, ih (fun x hx => h x (by simp [hx]))]

theorem splitRadix_of_digits (l : List Char)
    (h : ∀ c ∈ l, (decDigit? c).isSome) : splitRadix l = (10, l) := by
  cases l with
  | nil => rfl
  | cons c1 t =>
    cases t with
    | nil => rfl
    | cons c2 cs =>
      have h2 := (decDigit?_isSome_iff c2).mp (h c2 (by simp))
      have hx : c2 ≠ 'x' := by
        intro he
        rw [he] at h2
        simp at h2
      have hX : c2 ≠ 'X' := by
        intro he
        rw [he] at h2
        simp at h2
      simp [splitRadix, hx, hX]

theorem stripSign_of_digit (c : Char) (cs : List Char)
    (h : (decDigit? c).isSome) : stripSign (c :: cs) = (1, c :: cs) := by
  have hb := (decDigit?_isSome_iff c).mp h
  have hp : c ≠ '+' := by
    intro he
    rw [he] at hb
    simp at hb
  have hm : c ≠ '-' := by
    intro he
    rw [he] at hb
    simp at hb
  simp [stripSign, hp, hm]

/-- On a nonempty string of decimal digits, `parseInt` succeeds and returns
its positional value. -/
theorem jsParseIntList_of_digits (l : List Char) (hne : l ≠ [])
    (h : ∀ c ∈ l, (decDigit? c).isSome) :
    jsParseIntList l =
      some ((digitsToNat 10 (l.map (fun c => (decDigit? c).getD 0)) : Nat) : Int) := by
  cases l with
  | nil => exact absurd rfl hne
  | cons c cs =>
    have hc := h c (by simp)
    have hws : isJsWhitespace c = false := isJsWhitespace_of_digit c hc
    unfold jsParseIntList
    rw [List.dropWhile_cons]
    simp only [hws, Bool.false_eq_true, if_false]
    rw [stripSign_of_digit c cs hc]
    simp only
    rw [splitRadix_of_digits (c :: cs) h]
    simp only
    rw [takeDigits_of_digits (c :: cs) h]
    simp

/-- `parseInt` inverts decimal printing of a natural number. -/
theorem jsParseIntList_natReprList (n : Nat) :
    jsParseIntList (natReprList n) = some (n : Int) := by
  rw [jsParseIntList_of_digits (natReprList n) (natReprList_ne_nil n)
    (natReprList_digits n), digitsToNat_natReprList n]

theorem intRepr_ofNat (n : Nat) : intRepr (Int.ofNat n) = natRepr n := by
  unfold intRepr natRepr
  simp

theorem slash_not_mem_natReprList (n : Nat) : '/' ∉ natReprList n := by
  intro hm
  have := (decDigit?_isSome_iff '/').mp (natReprList_digits n '/' hm)
  simp at this

/-! ## Lemmas about `splitChar` -/

theorem splitChar_of_not_mem (sep : Char) : ∀ l : List Char, sep ∉ l →
    splitChar sep l = [l] := by
  intro l
  induction l with
  | nil => intro _; rfl
  | cons c cs ih =>
    intro h
    have hc : c ≠ sep := by
      intro he
      exact h (by simp [he])
    have hcs : sep ∉ cs := fun hm => h (by simp [hm])
    rw [splitChar]
    simp [hc, ih hcs]

theorem splitChar_ne_nil (sep : Char) : ∀ l : List Char, splitChar sep l ≠ [] := by
  intro l
  induction l with
  | nil => simp [splitChar]
  | cons c cs ih =>
    rw [splitChar]
    by_cases h : c = sep
    · simp [h]
    · simp only [h, if_false]
      cases hs : splitChar sep cs with
      | nil => exact absurd hs ih
      | cons g gs => simp

theorem splitChar_append (sep : Char) : ∀ l1 l2 : List Char, sep ∉ l1 →
    splitChar sep (l1 ++ sep :: l2) = l1 :: splitChar sep l2 := by
  intro l1
  induction l1 with
  | nil =>
    intro l2 _
    simp [splitChar]
  | cons c cs ih =>
    intro l2 h
    have hc : c ≠ sep := by
      intro he
      exact h (by simp [he])
    have hcs : sep ∉ cs := fun hm => h (by simp [hm])
    rw [List.cons_append, splitChar]
    simp only [hc, if_false]
    rw [ih l2 hcs]

/-- Splitting the topic `alex/<seg>` on `/` for a slash-free segment. -/
theorem splitChar_alex (seg : List Char) (h : '/' ∉ seg) :
    splitChar '/' ("alex".data ++ '/' :: seg) = ["alex".data, seg] := by
  rw [splitChar_append '/' "alex".data seg (by decide), splitChar_of_not_mem '/' seg h]

/-! ## Behavioural lemmas about the embedded operations -/

/-- On a topic `alex/<seg>` whose segment is slash-free, the inbound codec
is exactly `parseInt` on the segment paired with the lenient payload parse. -/
theorem decodeInbound_alex_seg (seg payload : String) (h : '/' ∉ seg.data) :
    decodeInbound ("alex/" ++ seg) payload =
      (jsParseInt seg).map (fun id => (id, jsTrim payload == "1")) := by
  unfold decodeInbound
  have hd : ("alex/" ++ seg).data = "alex".data ++ '/' :: seg.data := rfl
  rw [hd, splitChar_alex seg.data h]
  cases hp : jsParseIntList seg.data <;> simp [jsParseInt, hp]

theorem intRepr_natCast (n : Nat) : intRepr (n : Int) = natRepr n := by
  unfold intRepr natRepr
  simp

/-- Decoding a canonically printed device id always succeeds. -/
theorem decodeInbound_natRepr (n : Nat) (payload : String) :
    decodeInbound ("alex/" ++ natRepr n) payload =
      some ((n : Int), jsTrim payload == "1") := by
  rw [decodeInbound_alex_seg (natRepr n) payload (slash_not_mem_natReprList n)]
  show ((jsParseIntList (natReprList n)).map _) = _
  rw [jsParseIntList_natReprList n]
  rfl

/-- Topics that do not split into exactly `alex` and one segment decode to
nothing. -/
theorem decodeInbound_not_alex (topic payload : String)
    (h : ∀ ns seg : List Char, splitChar '/' topic.data = [ns, seg] → ns ≠ "alex".data) :
    decodeInbound topic payload = none := by
  unfold decodeInbound
  cases hs : splitChar '/' topic.data with
  | nil => rfl
  | cons ns t =>
    cases t with
    | nil => rfl
    | cons seg t2 =>
      cases t2 with
      | nil => simp [h ns seg hs]
      | cons x xs => rfl

/-- The broker string stored by the constructor is never empty: the `||`
defaulting replaces every falsy broker value with the localhost URL. -/
theorem resolveConfig_broker_ne (cfg : MegaDConfigIn) : (resolveConfig cfg).broker ≠ "" := by
  rcases cfg with ⟨mq, devs, u⟩
  cases mq with
  | none =>
    show "mqtt://localhost:1883" ≠ ""
    decide
  | some m =>
    rcases m with ⟨br, us, pw⟩
    cases br with
    | none =>
      show "mqtt://localhost:1883" ≠ ""
      decide
    | some b =>
      show (if b = "" then "mqtt://localhost:1883" else b) ≠ ""
      split
      · decide
      · assumption

/-- A message on the well-formed state topic of device `n` is dispatched to
`updateDeviceState` after the receive log line. -/
theorem handleMqtt_wellformed (devices : List MDevice) (n : Nat) (payload : String) :
    handleMqttMessage devices ("alex/" ++ natRepr n) payload =
      Effect.logInfo ("MQTT message received - Topic: " ++ ("alex/" ++ natRepr n) ++
          ", Message: " ++ payload) ::
        updateDeviceState devices (n : Int) payload := by
  unfold handleMqttMessage
  have hd : ("alex/" ++ natRepr n).data = "alex".data ++ '/' :: natReprList n := rfl
  rw [hd, splitChar_alex _ (slash_not_mem_natReprList n)]
  simp [jsParseIntList_natReprList n]

theorem registeredOf_flatMapDevices (devs : List DeviceConfig) :
    registeredOf (devs.flatMap (fun d =>
      Effect.logInfo ("Creating configured device: " ++ d.name ++ " (ID: " ++
          natRepr d.id ++ ")") ::
        createMegaDLight d.id d.name)) = devs.map (fun d => (d.id, d.name)) := by
  induction devs with
  | nil => rfl
  | cons d ds ih =>
    simp only [registeredOf, createMegaDLight] at ih ⊢
    simp [List.flatMap_cons, List.filterMap_append, ih]

/-- The devices registered by `createDevices`: the default bedroom light on an
empty list, every configured device otherwise. -/
theorem registeredOf_createDevices (devs : List DeviceConfig) :
    registeredOf (createDevices devs) =
      if devs.isEmpty then [(11, "Bedroom Light")]
      else devs.map (fun d => (d.id, d.name)) := by
  cases devs with
  | nil => rfl
  | cons d ds =>
    simp only [createDevices, List.isEmpty_cons, Bool.false_eq_true, if_false]
    exact registeredOf_flatMapDevices (d :: ds)

/-- `onStart` registers exactly the devices that `createDevices` registers. -/
theorem registeredOf_onStart (r : ResolvedConfig) (reason : Option String) :
    registeredOf (onStart r reason).2 = registeredOf (createDevices r.devices) := by
  unfold onStart initializeMqtt
  by_cases hb : r.broker = "" <;>
    simp [hb, registeredOf, List.filterMap_cons, List.filterMap_append]

/-! ## The claims -/

/-- Claim C1, counterexample: the claim says a topic whose second segment is
not an integer decodes to nothing, but `alex/11abc` — whose second segment
`11abc` is not an integer — decodes to `(11, true)` because JavaScript
`parseInt` reads the longest digit prefix and ignores trailing garbage. -/
theorem megadC1_counterexample :
    isIntegerLiteral "11abc" = false ∧
    decodeInbound "alex/11abc" "1" = some ((11 : Int), true) := by
  constructor
  · decide
  · decide

/-- Claim C1, amended: a message decodes exactly when the topic has two
`/`-separated segments, the first is `alex`, and JavaScript `parseInt`
yields a number on the second segment (so a segment with an integer prefix
followed by garbage still decodes, using that prefix); the decoded pair is
`(parseInt(segment), payload.trim() == "1")`, so payload `"1"` gives state
true and any other payload gives false.  Topics with a different namespace
or segment count decode to nothing. -/
theorem megadC1_decode :
    (∀ seg payload : String, '/' ∉ seg.data →
      decodeInbound ("alex/" ++ seg) payload =
        (jsParseInt seg).map (fun id => (id, jsTrim payload == "1"))) ∧
    (∀ (n : Nat) (payload : String),
      decodeInbound ("alex/" ++ natRepr n) payload =
        some ((n : Int), jsTrim payload == "1")) ∧
    (∀ topic payload : String,
      (∀ ns seg : List Char, splitChar '/' topic.data = [ns, seg] → ns ≠ "alex".data) →
      decodeInbound topic payload = none) :=
  ⟨decodeInbound_alex_seg, decodeInbound_natRepr, decodeInbound_not_alex⟩

/-- Witness for claim C1's theorem at the segment `11abc` and payload `1`. -/
theorem megadC1_witness :
    ('/' ∉ "11abc".data ∧
      decodeInbound ("alex/" ++ "11abc") "1" =
        (jsParseInt "11abc").map (fun id => (id, jsTrim "1" == "1"))) ∧
    decodeInbound ("alex/" ++ natRepr 11) "1" = some ((11 : Int), jsTrim "1" == "1") :=
  ⟨⟨by decide, megadC1_decode.1 "11abc" "1" (by decide)⟩,
   megadC1_decode.2.1 11 "1"⟩

/-- Claim C2: with a connected client, the `on` command for any device
publishes exactly `("alex/cmd", "<deviceId>:1")` and the `off` command
publishes exactly `("alex/cmd", "<deviceId>:0")`; the command topic is the
same fixed string for every device, and device 11's on-command publishes
`("alex/cmd", "11:1")`. -/
theorem megadC2_encode :
    ∀ (b : String) (deviceId : Nat) (deviceName : String),
      encodeOutbound deviceId true = ("alex/cmd", natRepr deviceId ++ ":1") ∧
      encodeOutbound deviceId false = ("alex/cmd", natRepr deviceId ++ ":0") ∧
      publishesOf (onCommandHandler (some b) deviceId deviceName) =
        [encodeOutbound deviceId true] ∧
      publishesOf (offCommandHandler (some b) deviceId deviceName) =
        [encodeOutbound deviceId false] ∧
      encodeOutbound 11 true = ("alex/cmd", "11:1") := by
  intro b deviceId deviceName
  have h1 : (":" ++ "1" : String) = ":1" := rfl
  have h0 : (":" ++ "0" : String) = ":0" := rfl
  refine ⟨?_, ?_, rfl, rfl, by decide⟩
  · show ("alex/cmd", natRepr deviceId ++ ":" ++ "1") = _
    rw [String.append_assoc, h1]
  · show ("alex/cmd", natRepr deviceId ++ ":" ++ "0") = _
    rw [String.append_assoc, h0]

/-- Claim C3, counterexample: with `mqtt.broker` missing from the
configuration, the system does NOT run in degraded mode — the constructor
substitutes the default broker URL, so `onStart` constructs the MQTT client
and emits a connect to `mqtt://localhost:1883`. -/
theorem megadC3_counterexample :
    (onStart (resolveConfig ⟨none, some [⟨11, "Bedroom Light", some "Bedroom"⟩], false⟩)
        none).1 = some "mqtt://localhost:1883" ∧
    Effect.mqttConnect "mqtt://localhost:1883" ∈
      (onStart (resolveConfig ⟨none, some [⟨11, "Bedroom Light", some "Bedroom"⟩], false⟩)
        none).2 := by
  decide

/-- Claim C3, amended: for every configuration in which `mqtt.broker` is
missing, the constructor defaults the broker to `mqtt://localhost:1883`, so
the MQTT transport IS constructed and a connect to the default broker is
attempted; device creation still succeeds for every configured device, and
commands issued while the client slot is empty are no-ops that only log.
(The `initializeMqtt` degraded-mode branch is unreachable from the
constructor's output.) -/
theorem megadC3_defaultedBroker (cfg : MegaDConfigIn)
    (h : cfg.mqtt.bind MqttConfig.broker = none) :
    (resolveConfig cfg).broker = "mqtt://localhost:1883" ∧
    (onStart (resolveConfig cfg) none).1 = some "mqtt://localhost:1883" ∧
    Effect.mqttConnect "mqtt://localhost:1883" ∈ (onStart (resolveConfig cfg) none).2 ∧
    (∀ d ∈ (resolveConfig cfg).devices,
      (d.id, d.name) ∈ registeredOf (onStart (resolveConfig cfg) none).2) ∧
    (∀ deviceId state : Nat,
      sendMqttCommand none deviceId state = [Effect.logError "MQTT client not connected"]) := by
  have hb : (resolveConfig cfg).broker = "mqtt://localhost:1883" := by
    rcases cfg with ⟨mq, devs, u⟩
    cases mq with
    | none => rfl
    | some m =>
      rcases m with ⟨br, us, pw⟩
      cases br with
      | none => rfl
      | some b => simp [Option.bind] at h
  refine ⟨hb, ?_, ?_, ?_, fun _ _ => rfl⟩
  · simp [onStart, initializeMqtt, hb]
  · simp [onStart, initializeMqtt, hb]
  · intro d hd
    rw [registeredOf_onStart, registeredOf_createDevices]
    rcases hdevs : (resolveConfig cfg).devices with _ | ⟨x, xs⟩
    · rw [hdevs] at hd; simp at hd
    · rw [hdevs] at hd
      simp only [List.isEmpty_cons, Bool.false_eq_true, if_false]
      exact List.mem_map_of_mem _ hd

/-- Witness for claim C3's theorem at a concrete configuration with no
`mqtt` block. -/
theorem megadC3_witness :
    ((⟨none, some [⟨11, "Bedroom Light", some "Bedroom"⟩], false⟩ : MegaDConfigIn)).mqtt.bind
        MqttConfig.broker = none ∧
    (resolveConfig ⟨none, some [⟨11, "Bedroom Light", some "Bedroom"⟩], false⟩).broker =
      "mqtt://localhost:1883" ∧
    (onStart (resolveConfig ⟨none, some [⟨11, "Bedroom Light", some "Bedroom"⟩], false⟩)
        none).1 = some "mqtt://localhost:1883" := by
  refine ⟨rfl, ?_, ?_⟩
  · exact (megadC3_defaultedBroker
      (⟨none, some [⟨11, "Bedroom Light", some "Bedroom"⟩], false⟩ : MegaDConfigIn) rfl).1
  · exact (megadC3_defaultedBroker
      (⟨none, some [⟨11, "Bedroom Light", some "Bedroom"⟩], false⟩ : MegaDConfigIn) rfl).2.1

/-- Claim C4: for every (resolved) configuration, `onStart` performs, in this
exact order: the start log line, awaiting readiness of the external registry,
clearing stale selection state, initializing the MQTT transport (the connect
log line and the connect itself), and then creating all device records; the
`connect`-event listener subscribes to one state topic `alex/<id>` per
configured device.  No step is skipped or reordered (in particular the
degraded branch of `initializeMqtt` is never taken). -/
theorem megadC4_onStartOrder (cfg : MegaDConfigIn) (reason : Option String) :
    onStart (resolveConfig cfg) reason =
      (some (resolveConfig cfg).broker,
       [Effect.logInfo ("onStart called with reason: " ++ reason.getD "none"),
        Effect.awaitReady, Effect.clearSelect,
        Effect.logInfo ("Connecting to MQTT broker: " ++ (resolveConfig cfg).broker),
        Effect.mqttConnect (resolveConfig cfg).broker] ++
         createDevices (resolveConfig cfg).devices) ∧
    onMqttConnected (resolveConfig cfg) =
      Effect.logInfo "Connected to MQTT broker" ::
        (resolveConfig cfg).devices.flatMap (fun d =>
          [Effect.mqttSubscribe ("alex/" ++ natRepr d.id),
           Effect.logInfo ("Subscribed to alex/" ++ natRepr d.id)]) := by
  constructor
  · unfold onStart initializeMqtt
    rw [if_neg (resolveConfig_broker_ne cfg)]
    simp
  · rfl

/-- Claim C5: shutdown is idempotent — after one `onShutdown` the client slot
is null, so a second invocation emits no disconnect effect and does not
fault (it is the same total function on the null slot), and across both
invocations the MQTT session is ended at most once, guarded by the null
client check. -/
theorem megadC5_shutdownIdempotent (client : Option String) (unreg : Bool)
    (r1 r2 : Option String) :
    (onShutdown client unreg r1).1 = none ∧
    Effect.mqttDisconnect ∉ (onShutdown (onShutdown client unreg r1).1 unreg r2).2 ∧
    List.countP isDisconnectEffect
        ((onShutdown client unreg r1).2 ++
          (onShutdown (onShutdown client unreg r1).1 unreg r2).2) ≤ 1 := by
  cases client <;> cases unreg <;>
    simp [onShutdown, isDisconnectEffect, List.countP_cons, List.countP_append]

/-- Claim C6: an inbound message on the well-formed state topic `alex/<id>`
whose id matches no registered device produces exactly the receive log line
and a warning; no attribute write (and no other registry effect) is
performed and no error propagates. -/
theorem megadC6_unknownDevice (devices : List MDevice) (n : Nat) (payload : String)
    (h : ∀ d ∈ devices, d.uniqueId ≠ "megad_" ++ natRepr n) :
    handleMqttMessage devices ("alex/" ++ natRepr n) payload =
      [Effect.logInfo ("MQTT message received - Topic: " ++ ("alex/" ++ natRepr n) ++
          ", Message: " ++ payload),
       Effect.logWarn ("Device with ID " ++ natRepr n ++ " not found")] := by
  rw [handleMqtt_wellformed]
  unfold updateDeviceState
  rw [intRepr_natCast n]
  have hfind : devices.find? (fun d => d.uniqueId == "megad_" ++ natRepr n) = none :=
    List.find?_eq_none.mpr (fun d hd => by simpa using h d hd)
  rw [hfind]

/-- Witness for claim C6's theorem: a message for the unconfigured device 99
while only device 11 is registered. -/
theorem megadC6_witness :
    (∀ d ∈ [MDevice.mk "megad_11" ["onOff"]], d.uniqueId ≠ "megad_" ++ natRepr 99) ∧
    handleMqttMessage [MDevice.mk "megad_11" ["onOff"]] ("alex/" ++ natRepr 99) "1" =
      [Effect.logInfo ("MQTT message received - Topic: " ++ ("alex/" ++ natRepr 99) ++
          ", Message: " ++ "1"),
       Effect.logWarn ("Device with ID " ++ natRepr 99 ++ " not found")] :=
  ⟨by decide, megadC6_unknownDevice [MDevice.mk "megad_11" ["onOff"]] 99 "1" (by decide)⟩

/-- Claim C7, counterexample: with no MQTT client, the command path logs the
`MQTT client not connected` line at ERROR level — no warning-level log is
emitted, contrary to the claim's "logs a 'not connected' warning". -/
theorem megadC7_counterexample :
    sendMqttCommand none 11 1 = [Effect.logError "MQTT client not connected"] ∧
    (∀ e ∈ sendMqttCommand none 11 1, isWarnEffect e = false) := by
  decide

/-- Claim C7, amended: for every command issued while no MQTT client exists,
the command handler logs the error-level line `MQTT client not connected`,
does not throw, and publishes nothing — the command is dropped with no
queueing or buffering. -/
theorem megadC7_disconnectedDrop (deviceId state : Nat) (deviceName : String) :
    sendMqttCommand none deviceId state = [Effect.logError "MQTT client not connected"] ∧
    publishesOf (sendMqttCommand none deviceId state) = [] ∧
    onCommandHandler none deviceId deviceName =
      [Effect.logInfo ("Turning ON device " ++ natRepr deviceId ++ " (" ++ deviceName ++ ")"),
       Effect.logError "MQTT client not connected"] ∧
    publishesOf (onCommandHandler none deviceId deviceName) = [] ∧
    publishesOf (offCommandHandler none deviceId deviceName) = [] :=
  ⟨rfl, rfl, rfl, rfl, rfl⟩

/-- Claim C8, counterexample: for a known device lacking the onOff capability
the write is skipped but the mismatch is NOT logged — the trace is exactly
the generic state-update info line, and the log output is identical to that
of a device which has the capability, so no log records the mismatch. -/
theorem megadC8_counterexample :
    updateDeviceState [MDevice.mk "megad_11" ["powerSource"]] 11 "1" =
      [Effect.logInfo "Updating device 11 state to: ON"] ∧
    (updateDeviceState [MDevice.mk "megad_11" ["powerSource"]] 11 "1").filter isLogEffect =
      (updateDeviceState [MDevice.mk "megad_11" ["onOff"]] 11 "1").filter isLogEffect := by
  decide

/-- Claim C8, amended: for every decoded inbound state update targeting a
known device that lacks the onOff capability, the attribute write is
silently skipped — the handler emits only the generic state-update info
line (no mismatch log) and no error propagates. -/
theorem megadC8_capabilitySkip (devices : List MDevice) (deviceId : Int) (state : String)
    (d : MDevice)
    (hfind : devices.find? (fun x => x.uniqueId == "megad_" ++ intRepr deviceId) = some d)
    (hcap : d.clusters.contains "onOff" = false) :
    updateDeviceState devices deviceId state =
      [Effect.logInfo ("Updating device " ++ intRepr deviceId ++ " state to: " ++
        (if jsTrim state == "1" then "ON" else "OFF"))] := by
  have hcap2 : "onOff" ∉ d.clusters := by simpa using hcap
  unfold updateDeviceState
  rw [hfind]
  simp [hcap2]

/-- Witness for claim C8's theorem: device 11 registered without the onOff
cluster receives the payload `0`. -/
theorem megadC8_witness :
    (([MDevice.mk "megad_11" ["powerSource"]].find?
        (fun x => x.uniqueId == "megad_" ++ intRepr 11) =
          some (MDevice.mk "megad_11" ["powerSource"])) ∧
      (MDevice.mk "megad_11" ["powerSource"]).clusters.contains "onOff" = false) ∧
    updateDeviceState [MDevice.mk "megad_11" ["powerSource"]] 11 "0" =
      [Effect.logInfo ("Updating device " ++ intRepr 11 ++ " state to: " ++
        (if jsTrim "0" == "1" then "ON" else "OFF"))] :=
  ⟨⟨by decide, by decide⟩,
   megadC8_capabilitySkip [MDevice.mk "megad_11" ["powerSource"]] 11 "0"
     (MDevice.mk "megad_11" ["powerSource"]) (by decide) (by decide)⟩

/-- Claim C9: a present-but-empty devices list produces the same device
creation as a missing list — exactly one default device with id 11 and name
`Bedroom Light` — and for every configuration startup registers at least one
device. -/
theorem megadC9_emptyDevicesDefault :
    (∀ (m : Option MqttConfig) (u : Bool),
      registeredOf (createDevices (resolveConfig ⟨m, some [], u⟩).devices) =
        [(11, "Bedroom Light")] ∧
      registeredOf (createDevices (resolveConfig ⟨m, none, u⟩).devices) =
        [(11, "Bedroom Light")]) ∧
    (∀ cfg : MegaDConfigIn, registeredOf (createDevices (resolveConfig cfg).devices) ≠ []) := by
  constructor
  · exact fun m u => ⟨rfl, rfl⟩
  · intro cfg
    rw [registeredOf_createDevices]
    split
    · simp
    · rename_i hne
      simp only [ne_eq, List.map_eq_nil_iff]
      intro hnil
      rw [hnil] at hne
      simp at hne

/-- Claim C10: the platform constructor fails with the version error when the
host's version-check function is absent or rejects `3.0.7`, and succeeds
(emitting the three startup log lines) exactly when the check accepts
`3.0.7`. -/
theorem megadC10_versionGate (cfg : MegaDConfigIn) (currentVersion : String)
    (v : String → Bool) :
    constructPlatform cfg currentVersion none = Except.error (versionErrorMsg currentVersion) ∧
    (v "3.0.7" = false →
      constructPlatform cfg currentVersion (some v) =
        Except.error (versionErrorMsg currentVersion)) ∧
    (v "3.0.7" = true →
      constructPlatform cfg currentVersion (some v) =
        Except.ok (resolveConfig cfg,
          [Effect.logInfo "Initializing MegaD Platform...",
           Effect.logInfo ("MQTT Broker: " ++ (resolveConfig cfg).broker),
           Effect.logInfo ("Configured devices: " ++
             natRepr (resolveConfig cfg).devices.length)])) := by
  refine ⟨rfl, ?_, ?_⟩ <;> intro h <;> simp [constructPlatform, h]

/-- Witness for claim C10's theorem: a rejecting version check makes the
constructor throw. -/
theorem megadC10_witness :
    ((fun _ : String => false) "3.0.7" = false) ∧
    constructPlatform ⟨none, none, false⟩ "2.0.0" (some (fun _ => false)) =
      Except.error (versionErrorMsg "2.0.0") :=
  ⟨rfl, (megadC10_versionGate ⟨none, none, false⟩ "2.0.0" (fun _ => false)).2.1 rfl⟩

end MegaD
